import Mathlib

/-!
Shallow embedding of the token issuance / verification core of the
teste-tivit API (src/app/core/security.py and the route-exposed
authentication use case in
src/app/domain/use_cases/authentication_use_case.py).

Modelling conventions:
* JWT payloads are association lists `List (String × ClaimValue)`, mirroring
  the Python dicts (insertion order preserved, update-in-place semantics).
* Timestamps are natural numbers (seconds); `datetime.utcnow()` becomes an
  explicit `now : Nat` parameter, `timedelta(minutes=m)` becomes `m * 60`.
* Cryptographic digests are represented symbolically: `sha256Hex s` stands
  for the SHA-256 hex digest of `s`.  The program depends only on equality
  of digests (and digests being non-empty strings), which the symbolic
  representation preserves (SHA-256 is collision-free on the tiny input set
  involved).
* passlib bcrypt hashes are likewise symbolic: `pwd_hash p` stands for the
  bcrypt digest of password `p`.  passlib's `CryptContext.verify(secret,
  hash)` raises `ValueError` when `hash` is not a parseable bcrypt string
  (a bcrypt hash is `$2b$<cost>$` followed by exactly 22 salt plus 31
  checksum base64 characters); this fallible behaviour is modelled by
  `pwd_verify` returning `Except Unit Bool`, where only strings produced by
  `pwd_hash` are parseable.  The literal placeholder
  `$2b$12$dummy.hash.to.prevent.timing.attacks` used by
  `authenticate_user` has a 22-character salt followed by only 14 checksum
  characters, hence it is NOT parseable.
* `jwt.encode(payload, key, algorithm)` is modelled as packaging the payload
  with the key and algorithm used for signing; `jwt.decode` succeeds on the
  signature check exactly when key and algorithm match the configured ones.
  The claim validations of python-jose `_validate_claims` are reproduced in
  the library's order: iat, nbf, exp, aud, iss, sub, jti.
* Exceptions (`HTTPException`, uncaught `ValueError`) are modelled with
  `Except`.
-/

deriving instance DecidableEq for Except

namespace TesteTivit

/-- A JSON claim value as it appears in a decoded JWT payload: strings, or
integer timestamps (python-jose serialises `datetime` claims to integer
Unix timestamps). -/
inductive ClaimValue where
  | str (s : String)
  | time (t : Nat)
deriving DecidableEq, Repr

/-- A JWT payload: a Python dict modelled as an insertion-ordered
association list. -/
abbrev Payload := List (String × ClaimValue)

/-- `dict.get(key)` on an association list. -/
def lookupStr {α : Type} : List (String × α) → String → Option α
  | [], _ => none
  | (k, v) :: rest, key => if k == key then some v else lookupStr rest key

/-- `d[k] = v` on a Python dict: replace the value in place if the key is
present, append otherwise. -/
def dictInsert (d : Payload) (k : String) (v : ClaimValue) : Payload :=
  if d.any (fun p => p.1 == k) then
    d.map (fun p => if p.1 == k then (k, v) else p)
  else
    d ++ [(k, v)]

/-- `payload.get(k)`. -/
def dictGet (d : Payload) (k : String) : Option ClaimValue :=
  lookupStr d k

/-- `hashlib.sha256(s.encode()).hexdigest()`, represented symbolically (the
code depends only on digest equality; a digest string is never empty). -/
def sha256Hex (s : String) : String :=
  "sha256:" ++ s

/-- `pwd_context.hash(password)` (passlib bcrypt), represented symbolically
as a parseable bcrypt string determined by the password. -/
def pwd_hash (password : String) : String :=
  "$2b$12$model." ++ password

/-- Whether a hash string parses as a bcrypt hash.  In the model exactly the
outputs of `pwd_hash` parse; in particular the malformed dummy placeholder
of `authenticate_user` does not. -/
def bcrypt_parseable (h : String) : Bool :=
  "$2b$12$model.".data.isPrefixOf h.data

/-- `pwd_context.verify(plain, h)`: returns whether `plain` hashes to `h`,
or raises `ValueError` (modelled as `.error ()`) when `h` is not a
parseable bcrypt hash. -/
def pwd_verify (plain h : String) : Except Unit Bool :=
  if bcrypt_parseable h then .ok (h == pwd_hash plain) else .error ()

/-- `verify_password` from security.py (a direct wrapper around
`pwd_context.verify`). -/
def verify_password (plain_password hashed_password : String) : Except Unit Bool :=
  pwd_verify plain_password hashed_password

/-- `VALID_ROLES` from security.py: the fixed role → expected-tag mapping. -/
def VALID_ROLES : List (String × String) :=
  [("user", sha256Hex "user"), ("admin", sha256Hex "admin")]

/-- `validate_role` from security.py: look up the expected tag of `role` and
compare (constant-time `secrets.compare_digest`) with `role_hash`. -/
def validate_role (role role_hash : String) : Bool :=
  match lookupStr VALID_ROLES role with
  | some expected => expected == role_hash
  | none => false

/-- One record of `fake_users_db`. -/
structure UserRec where
  username : String
  role : String
  password_hash : String
  is_active : Bool
  role_hash : String
deriving DecidableEq, Repr

/-- `fake_users_db` from security.py. -/
def fake_users_db : List (String × UserRec) :=
  [("usuario", ⟨"usuario", "user", pwd_hash "L0XuwPOdS5U", true, sha256Hex "user"⟩),
   ("admin", ⟨"admin", "admin", pwd_hash "JKSipm0YH", true, sha256Hex "admin"⟩)]

/-- The exceptional outcomes of `authenticate_user`: the deliberate
`HTTPException(500, "Security violation detected")` on a role-integrity
mismatch, and an uncaught `ValueError` escaping from passlib. -/
inductive AuthFail where
  | integrityViolation
  | valueError
deriving DecidableEq, Repr

/-- The success dictionary returned by `authenticate_user`. -/
structure AuthUser where
  username : String
  role : String
  is_active : Bool
deriving DecidableEq, Repr

/-- `authenticate_user` from security.py.  `.ok none` is the `return None`
path (invalid credentials); `.ok (some u)` is success; `.error` is an
exception escaping the function. -/
def authenticate_user (db : List (String × UserRec)) (username password : String) :
    Except AuthFail (Option AuthUser) :=
  let dummy_hash := "$2b$12$dummy.hash.to.prevent.timing.attacks"
  match lookupStr db username with
  | none =>
    -- dummy verification to prevent timing attacks; its ValueError escapes
    match pwd_verify password dummy_hash with
    | .error _ => .error .valueError
    | .ok _ => .ok none
  | some user =>
    if !user.is_active then .ok none
    else
      match verify_password password user.password_hash with
      | .error _ => .error .valueError
      | .ok ok =>
        if !ok then .ok none
        else if !validate_role user.role user.role_hash then .error .integrityViolation
        else .ok (some ⟨user.username, user.role, user.is_active⟩)

/-- The environment-sourced configuration consumed by the core
(src/app/core/config.py). -/
structure Settings where
  secret_key : String
  algorithm : String
  access_token_expire_minutes : Nat
deriving DecidableEq, Repr

/-- The default settings of config.py (no environment overrides). -/
def defaultSettings : Settings :=
  ⟨"your-secret-key-here-change-in-production", "HS256", 30⟩

/-- `create_access_token` from security.py.  `now` models
`datetime.utcnow()` (seconds), `jti` the random `secrets.token_urlsafe(32)`
value, `expires_delta` the optional `timedelta` argument (seconds).
If a non-string `role` claim were present the Python code would fail on
`.encode()`; no flow of the program produces one, and the model leaves the
payload unchanged in that unreachable corner. -/
def create_access_token (data : Payload) (now : Nat) (jti : String)
    (expires_delta : Option Nat) (cfg : Settings) : Payload :=
  let expire := match expires_delta with
    | some d => now + d
    | none => now + cfg.access_token_expire_minutes * 60
  let t := dictInsert data "exp" (.time expire)
  let t := dictInsert t "iat" (.time now)
  let t := dictInsert t "nbf" (.time now)
  let t := dictInsert t "jti" (.str jti)
  let t := dictInsert t "iss" (.str "teste-tivit-api")
  let t := dictInsert t "aud" (.str "teste-tivit-client")
  match dictGet t "role" with
  | some (.str r) => dictInsert t "role_hash" (.str (sha256Hex r))
  | _ => t

/-- A signed JWT: the payload together with the key and algorithm that
signed it (`jwt.encode(payload, key, algorithm)`). -/
structure Token where
  payload : Payload
  key : String
  alg : String
deriving DecidableEq, Repr

/-- `jwt.encode(payload, settings.secret_key, settings.algorithm)`. -/
def jwtEncode (p : Payload) (cfg : Settings) : Token :=
  ⟨p, cfg.secret_key, cfg.algorithm⟩

/-- Mint a token exactly as the program does: build the claim set with
`create_access_token` and sign it with the configured key and algorithm. -/
def mintToken (data : Payload) (now : Nat) (jti : String)
    (expires_delta : Option Nat) (cfg : Settings) : Token :=
  jwtEncode (create_access_token data now jti expires_delta cfg) cfg

/-- The failure cases of python-jose `jwt.decode` (all raised as subclasses
of `JWTError`): signature/algorithm rejection, a registered claim of the
wrong type, `nbf` in the future, `exp` in the past, audience mismatch,
issuer mismatch. -/
inductive DecodeError where
  | badSignature
  | claimFormat
  | immature
  | expired
  | badAudience
  | badIssuer
deriving DecidableEq, Repr

/-- jose `_validate_iat`: if present, `iat` must be numeric. -/
def validate_iat (p : Payload) : Except DecodeError Unit :=
  match dictGet p "iat" with
  | some (.str _) => .error .claimFormat
  | _ => .ok ()

/-- jose `_validate_nbf` (leeway 0): reject when `nbf > now`. -/
def validate_nbf (p : Payload) (now : Nat) : Except DecodeError Unit :=
  match dictGet p "nbf" with
  | none => .ok ()
  | some (.time nbf) => if nbf > now then .error .immature else .ok ()
  | some (.str _) => .error .claimFormat

/-- jose `_validate_exp` (leeway 0): reject when `exp < now`; a missing
`exp` is skipped. -/
def validate_exp (p : Payload) (now : Nat) : Except DecodeError Unit :=
  match dictGet p "exp" with
  | none => .ok ()
  | some (.time exp) => if exp < now then .error .expired else .ok ()
  | some (.str _) => .error .claimFormat

/-- jose `_validate_aud`: a missing `aud` claim is skipped (the
raise-on-missing branch is commented out in the library); a present one
must equal the expected audience. -/
def validate_aud (p : Payload) (audience : String) : Except DecodeError Unit :=
  match dictGet p "aud" with
  | none => .ok ()
  | some (.str a) => if a == audience then .ok () else .error .badAudience
  | some (.time _) => .error .claimFormat

/-- jose `_validate_iss`: `claims.get("iss")` must equal the expected
issuer (a missing or non-string `iss` compares unequal and is rejected). -/
def validate_iss (p : Payload) (issuer : String) : Except DecodeError Unit :=
  match dictGet p "iss" with
  | some (.str i) => if i == issuer then .ok () else .error .badIssuer
  | _ => .error .badIssuer

/-- jose `_validate_sub`: if present, `sub` must be a string. -/
def validate_sub (p : Payload) : Except DecodeError Unit :=
  match dictGet p "sub" with
  | some (.time _) => .error .claimFormat
  | _ => .ok ()

/-- jose `_validate_jti`: if present, `jti` must be a string. -/
def validate_jti (p : Payload) : Except DecodeError Unit :=
  match dictGet p "jti" with
  | some (.time _) => .error .claimFormat
  | _ => .ok ()

/-- jose `_validate_claims`, in the library's order. -/
def validate_claims (p : Payload) (audience issuer : String) (now : Nat) :
    Except DecodeError Payload := do
  validate_iat p
  validate_nbf p now
  validate_exp p now
  validate_aud p audience
  validate_iss p issuer
  validate_sub p
  validate_jti p
  pure p

/-- python-jose `jwt.decode(token, key, algorithms, audience, issuer)`:
signature and algorithm check first, then claim validation. -/
def joseDecode (tok : Token) (cfg : Settings) (audience issuer : String)
    (now : Nat) : Except DecodeError Payload :=
  if tok.alg == cfg.algorithm && tok.key == cfg.secret_key then
    validate_claims tok.payload audience issuer now
  else
    .error .badSignature

/-- The failure outcomes of `verify_token`: a `JWTError` from `jwt.decode`
(generic 401), missing/empty subject (401), missing/empty role information
(401), role tampering detected (401), subject user missing or inactive
(401), and an uncaught `TypeError` escaping from
`secrets.compare_digest` (a 500-class crash, not an `HTTPException`: the
`except JWTError` handler does not catch it). -/
inductive VerifyFailure where
  | jwtError (e : DecodeError)
  | missingSubject
  | missingRoleInfo
  | roleTampering
  | userNotFoundOrInactive
  | typeError
deriving DecidableEq, Repr

/-- Python falsiness of `payload.get(k)`: `None`, the empty string, and the
integer 0 are falsy. -/
def isFalsy : Option ClaimValue → Bool
  | none => true
  | some (.str s) => s == ""
  | some (.time t) => t == 0

/-- The `validate_role(role, role_hash)` call of `verify_token`, applied to
raw claim values.  A non-string `role` is looked up unsuccessfully in
`VALID_ROLES` in Python (`dict.get` on a non-key) and yields `False`; a
valid string role looked up successfully but paired with a non-string
`role_hash` reaches `secrets.compare_digest(expected, role_hash)`, which
raises `TypeError` (modelled as `.error ()`); when the lookup fails the
`expected_hash is not None and ...` conjunction short-circuits to `False`
before `compare_digest` runs. -/
def roleClaimsCheck : Option ClaimValue → Option ClaimValue → Except Unit Bool
  | some (.str r), some (.str h) => .ok (validate_role r h)
  | some (.str r), _ =>
    match lookupStr VALID_ROLES r with
    | some _ => .error ()
    | none => .ok false
  | _, _ => .ok false

/-- `verify_token` from security.py.  The mutable global `fake_users_db` is
passed explicitly as `db` (state-passing embedding), and the verification
time as `now`. -/
def verify_token (tok : Token) (cfg : Settings) (now : Nat)
    (db : List (String × UserRec)) : Except VerifyFailure Payload :=
  match joseDecode tok cfg "teste-tivit-client" "teste-tivit-api" now with
  | .error e => .error (.jwtError e)
  | .ok payload =>
    let username := dictGet payload "sub"
    let role := dictGet payload "role"
    let role_hash := dictGet payload "role_hash"
    if isFalsy username then .error .missingSubject
    else if isFalsy role || isFalsy role_hash then .error .missingRoleInfo
    else
      match roleClaimsCheck role role_hash with
      | .error _ => .error .typeError
      | .ok valid =>
        if !valid then .error .roleTampering
        else
          match username with
          | some (.str u) =>
            match lookupStr db u with
            | some user =>
              if user.is_active then .ok payload
              else .error .userNotFoundOrInactive
            | none => .error .userNotFoundOrInactive
          | _ => .error .userNotFoundOrInactive

/-- `UserRole` from src/app/domain/entities/user.py. -/
inductive UserRole where
  | user
  | admin
deriving DecidableEq, Repr

/-- `UserRole.value` (the Python enum's string value). -/
def UserRole.value : UserRole → String
  | .user => "user"
  | .admin => "admin"

/-- The `User` domain entity (src/app/domain/entities/user.py).  Note that
it carries no role-integrity tag at all. -/
structure DomainUser where
  username : String
  role : UserRole
  is_active : Bool
  password_hash : Option String
deriving DecidableEq, Repr

/-- The initial `_users` store of `FakeUserRepository`
(src/app/infrastructure/repositories/fake_user_repository.py); its
`get_by_username` is a plain lookup. -/
def fakeRepo : String → Option DomainUser
  | u =>
    lookupStr
      [("usuario", ⟨"usuario", .user, true, some (pwd_hash "L0XuwPOdS5U")⟩),
       ("admin", ⟨"admin", .admin, true, some (pwd_hash "JKSipm0YH")⟩)] u

/-- The success dictionary returned by `AuthenticationUseCase.authenticate`
(token plus echoed user data). -/
structure AuthTokenResult where
  access_token : Token
  token_type : String
  user_username : String
  user_role : String
  user_is_active : Bool
deriving DecidableEq, Repr

namespace AuthenticationUseCase

/-- `AuthenticationUseCase.authenticate`
(src/app/domain/use_cases/authentication_use_case.py).  The injected
repository is the function `repo`; `now` and `jti` feed the token mint.
`.ok none` is the `return None` path; `.error` is an exception escaping
from `verify_password` (only possible on a malformed stored hash). -/
def authenticate (repo : String → Option DomainUser) (username password : String)
    (now : Nat) (jti : String) (cfg : Settings) : Except Unit (Option AuthTokenResult) :=
  match repo username with
  | none => .ok none
  | some user =>
    if !user.is_active then .ok none
    else
      match user.password_hash with
      | none => .ok none
      | some ph =>
        if ph == "" then .ok none
        else
          match verify_password password ph with
          | .error e => .error e
          | .ok ok =>
            if !ok then .ok none
            else
              let token_data : Payload :=
                [("sub", .str user.username), ("role", .str user.role.value)]
              .ok (some ⟨mintToken token_data now jti none cfg, "bearer",
                user.username, user.role.value, user.is_active⟩)

end AuthenticationUseCase

/-- Observable shape of a use-case authentication result: 0 = invalid
credentials (`None`), 1 = success, 2 = escaped exception. -/
def authOutcome : Except Unit (Option AuthTokenResult) → Nat
  | .ok none => 0
  | .ok (some _) => 1
  | .error _ => 2

/-- A copy of `repo` in which the stored role of every user is replaced by
`r` (tampering with the role data of the use-case store). -/
def retagRepo (repo : String → Option DomainUser) (r : UserRole) :
    String → Option DomainUser :=
  fun u => (repo u).map (fun d => { d with role := r })

/-! ### Helper lemmas -/

/-- Shape of the payload minted from the authentication claim set
`{sub, role}`: the six standard claims are appended in order and, because a
`role` claim is present, `role_hash` is appended last. -/
theorem create_access_token_sub_role (u r : String) (t0 : Nat) (jti : String)
    (cfg : Settings) :
    create_access_token [("sub", .str u), ("role", .str r)] t0 jti none cfg =
      [("sub", .str u), ("role", .str r),
       ("exp", .time (t0 + cfg.access_token_expire_minutes * 60)),
       ("iat", .time t0), ("nbf", .time t0), ("jti", .str jti),
       ("iss", .str "teste-tivit-api"), ("aud", .str "teste-tivit-client"),
       ("role_hash", .str (sha256Hex r))] := rfl

/-- Decoding a token signed with the configured key and algorithm reduces to
claim validation. -/
theorem joseDecode_jwtEncode (p : Payload) (cfg : Settings) (audience issuer : String)
    (now : Nat) :
    joseDecode (jwtEncode p cfg) cfg audience issuer now =
      validate_claims p audience issuer now := by
  simp [joseDecode, jwtEncode]

/-- Claim validation accepts the payload minted from `{sub, role}` whenever
`nbf = t0 ≤ now` and `exp = e` is not in the past. -/
theorem validate_claims_minted (u r jti : String) (t0 e now : Nat)
    (h1 : t0 ≤ now) (h2 : ¬ e < now) :
    validate_claims
      [("sub", .str u), ("role", .str r), ("exp", .time e),
       ("iat", .time t0), ("nbf", .time t0), ("jti", .str jti),
       ("iss", .str "teste-tivit-api"), ("aud", .str "teste-tivit-client"),
       ("role_hash", .str (sha256Hex r))]
      "teste-tivit-client" "teste-tivit-api" now =
      .ok [("sub", .str u), ("role", .str r), ("exp", .time e),
       ("iat", .time t0), ("nbf", .time t0), ("jti", .str jti),
       ("iss", .str "teste-tivit-api"), ("aud", .str "teste-tivit-client"),
       ("role_hash", .str (sha256Hex r))] := by
  have hn : ¬ t0 > now := by omega
  simp +decide [validate_claims, validate_iat, validate_nbf, validate_exp,
    validate_aud, validate_iss, validate_sub, validate_jti, dictGet, lookupStr,
    hn, h2, bind, Except.bind, pure, Except.pure]

/-- A symbolic SHA-256 digest is never the empty string. -/
theorem sha256Hex_ne_empty (r : String) : sha256Hex r ≠ "" := by
  intro h
  have h2 : (sha256Hex r).data = "".data := congrArg String.data h
  simp [sha256Hex, String.data_append] at h2

/-! ### Claim theorems -/

/-- Claim C3: for an identity minted through the authentication flow (claims
`{sub: username, role: role}` with a valid role), `create_access_token`
produces a payload containing exactly the claims sub, role, role_hash, exp,
iat, nbf, jti, iss, aud, with `iss = "teste-tivit-api"`,
`aud = "teste-tivit-client"`, `nbf = iat`, `exp = iat` plus the configured
TTL, and `role_hash` equal to the expected tag of the identity's role in
`VALID_ROLES`. -/
theorem C3_minted_claim_set (u r : String) (t0 : Nat) (jti : String)
    (cfg : Settings) (hr : r = "user" ∨ r = "admin") :
    (create_access_token [("sub", .str u), ("role", .str r)] t0 jti none cfg).map
        Prod.fst =
      ["sub", "role", "exp", "iat", "nbf", "jti", "iss", "aud", "role_hash"] ∧
    dictGet (create_access_token [("sub", .str u), ("role", .str r)] t0 jti none cfg)
        "iss" = some (.str "teste-tivit-api") ∧
    dictGet (create_access_token [("sub", .str u), ("role", .str r)] t0 jti none cfg)
        "aud" = some (.str "teste-tivit-client") ∧
    dictGet (create_access_token [("sub", .str u), ("role", .str r)] t0 jti none cfg)
        "iat" = some (.time t0) ∧
    dictGet (create_access_token [("sub", .str u), ("role", .str r)] t0 jti none cfg)
        "nbf" = some (.time t0) ∧
    dictGet (create_access_token [("sub", .str u), ("role", .str r)] t0 jti none cfg)
        "exp" = some (.time (t0 + cfg.access_token_expire_minutes * 60)) ∧
    lookupStr VALID_ROLES r = some (sha256Hex r) ∧
    dictGet (create_access_token [("sub", .str u), ("role", .str r)] t0 jti none cfg)
        "role_hash" = some (.str (sha256Hex r)) := by
  rw [create_access_token_sub_role]
  refine ⟨?_, ?_, ?_, ?_, ?_, ?_, ?_, ?_⟩
  · simp
  · simp +decide [dictGet, lookupStr]
  · simp +decide [dictGet, lookupStr]
  · simp +decide [dictGet, lookupStr]
  · simp +decide [dictGet, lookupStr]
  · simp +decide [dictGet, lookupStr]
  · rcases hr with h | h <;> subst h <;> decide
  · simp +decide [dictGet, lookupStr]

/-- Witness for C3 at a concrete identity. -/
theorem C3_minted_claim_set_witness :
    ("user" = "user" ∨ "user" = "admin") ∧
    ((create_access_token [("sub", .str "usuario"), ("role", .str "user")] 100 "J"
        none defaultSettings).map Prod.fst =
      ["sub", "role", "exp", "iat", "nbf", "jti", "iss", "aud", "role_hash"] ∧
    dictGet (create_access_token [("sub", .str "usuario"), ("role", .str "user")] 100
        "J" none defaultSettings) "iss" = some (.str "teste-tivit-api") ∧
    dictGet (create_access_token [("sub", .str "usuario"), ("role", .str "user")] 100
        "J" none defaultSettings) "aud" = some (.str "teste-tivit-client") ∧
    dictGet (create_access_token [("sub", .str "usuario"), ("role", .str "user")] 100
        "J" none defaultSettings) "iat" = some (.time 100) ∧
    dictGet (create_access_token [("sub", .str "usuario"), ("role", .str "user")] 100
        "J" none defaultSettings) "nbf" = some (.time 100) ∧
    dictGet (create_access_token [("sub", .str "usuario"), ("role", .str "user")] 100
        "J" none defaultSettings) "exp" =
      some (.time (100 + defaultSettings.access_token_expire_minutes * 60)) ∧
    lookupStr VALID_ROLES "user" = some (sha256Hex "user") ∧
    dictGet (create_access_token [("sub", .str "usuario"), ("role", .str "user")] 100
        "J" none defaultSettings) "role_hash" = some (.str (sha256Hex "user"))) :=
  ⟨Or.inl rfl,
   C3_minted_claim_set "usuario" "user" 100 "J" defaultSettings (Or.inl rfl)⟩

/-- Claim C6: a token minted by the program and verified at a time strictly
after its `exp` claim is rejected with the expiry failure (python-jose raises
`ExpiredSignatureError`, surfaced by `verify_token` as a `JWTError`
rejection). -/
theorem C6_expired_token (u r : String) (t0 now : Nat) (jti : String)
    (cfg : Settings) (db : List (String × UserRec))
    (h : t0 + cfg.access_token_expire_minutes * 60 < now) :
    verify_token (mintToken [("sub", .str u), ("role", .str r)] t0 jti none cfg)
      cfg now db = .error (.jwtError .expired) := by
  have hn : ¬ t0 > now := by omega
  simp +decide [verify_token, mintToken, create_access_token_sub_role,
    joseDecode_jwtEncode, validate_claims, validate_iat, validate_nbf,
    validate_exp, dictGet, lookupStr, hn, h, bind, Except.bind]

/-- Witness for C6 at a concrete expired token. -/
theorem C6_expired_token_witness :
    0 + defaultSettings.access_token_expire_minutes * 60 < 2000 ∧
    verify_token (mintToken [("sub", .str "usuario"), ("role", .str "user")] 0 "J"
        none defaultSettings) defaultSettings 2000 fake_users_db =
      .error (.jwtError .expired) :=
  ⟨by decide,
   C6_expired_token "usuario" "user" 0 2000 "J" defaultSettings fake_users_db
     (by decide)⟩

/-- The only identities `authenticate_user` can produce from the program's
credential store are usuario/user and admin/admin, both active. -/
theorem authenticate_user_fake_success (u p : String) (a : AuthUser)
    (h : authenticate_user fake_users_db u p = .ok (some a)) :
    a = ⟨"usuario", "user", true⟩ ∨ a = ⟨"admin", "admin", true⟩ := by
  rcases eq_or_ne u "usuario" with hu | hu
  · subst hu
    left
    simp +decide [authenticate_user, fake_users_db, lookupStr, verify_password,
      pwd_verify, bcrypt_parseable, pwd_hash, validate_role, VALID_ROLES,
      sha256Hex] at h
    split at h
    · simp only [Except.ok.injEq, Option.some.injEq] at h
      exact h.symm
    · simp at h
  · rcases eq_or_ne u "admin" with hu2 | hu2
    · subst hu2
      right
      simp +decide [authenticate_user, fake_users_db, lookupStr, verify_password,
        pwd_verify, bcrypt_parseable, pwd_hash, validate_role, VALID_ROLES,
        sha256Hex] at h
      split at h
      · simp only [Except.ok.injEq, Option.some.injEq] at h
        exact h.symm
      · simp at h
    · have hu' : "usuario" ≠ u := Ne.symm hu
      have hu2' : "admin" ≠ u := Ne.symm hu2
      simp +decide [authenticate_user, fake_users_db, lookupStr, hu', hu2',
        pwd_verify, bcrypt_parseable] at h

/-- Verifying a token minted from either of the two stored identities, at a
time inside its validity window, succeeds and returns the minted payload. -/
theorem verify_minted_roundtrip (uname r : String) (t0 now : Nat) (jti : String)
    (cfg : Settings) (h1 : t0 ≤ now)
    (h2 : now ≤ t0 + cfg.access_token_expire_minutes * 60)
    (hok : (uname = "usuario" ∧ r = "user") ∨ (uname = "admin" ∧ r = "admin")) :
    verify_token (mintToken [("sub", .str uname), ("role", .str r)] t0 jti none cfg)
      cfg now fake_users_db =
      .ok [("sub", .str uname), ("role", .str r),
        ("exp", .time (t0 + cfg.access_token_expire_minutes * 60)),
        ("iat", .time t0), ("nbf", .time t0), ("jti", .str jti),
        ("iss", .str "teste-tivit-api"), ("aud", .str "teste-tivit-client"),
        ("role_hash", .str (sha256Hex r))] := by
  have h2' : ¬ (t0 + cfg.access_token_expire_minutes * 60 < now) := by omega
  rcases hok with ⟨hu, hr⟩ | ⟨hu, hr⟩ <;> subst hu <;> subst hr <;>
  · unfold verify_token mintToken
    rw [create_access_token_sub_role, joseDecode_jwtEncode,
      validate_claims_minted _ _ _ _ _ _ h1 h2']
    simp +decide [isFalsy, dictGet, lookupStr, roleClaimsCheck, validate_role,
      VALID_ROLES, sha256Hex, fake_users_db]

/-- Claim C1: round-trip.  For every identity produced by a successful
authentication against the program's credential store, verifying the token
minted from the claims `{sub: username, role: role}` of that identity at
any time inside the validity window succeeds and returns a payload whose
`sub` and `role` equal the identity's username and role. -/
theorem C1_round_trip (u p : String) (a : AuthUser) (t0 now : Nat) (jti : String)
    (cfg : Settings)
    (hauth : authenticate_user fake_users_db u p = .ok (some a))
    (h1 : t0 ≤ now) (h2 : now ≤ t0 + cfg.access_token_expire_minutes * 60) :
    ∃ payload,
      verify_token (mintToken [("sub", .str a.username), ("role", .str a.role)]
          t0 jti none cfg) cfg now fake_users_db = .ok payload ∧
      dictGet payload "sub" = some (.str a.username) ∧
      dictGet payload "role" = some (.str a.role) := by
  rcases authenticate_user_fake_success u p a hauth with h | h <;> subst h
  · exact ⟨_, verify_minted_roundtrip "usuario" "user" t0 now jti cfg h1 h2
      (Or.inl ⟨rfl, rfl⟩), rfl, rfl⟩
  · exact ⟨_, verify_minted_roundtrip "admin" "admin" t0 now jti cfg h1 h2
      (Or.inr ⟨rfl, rfl⟩), rfl, rfl⟩

/-- Witness for C1: the stored user identity, minted at time 100 and
verified at time 150. -/
theorem C1_round_trip_witness :
    authenticate_user fake_users_db "usuario" "L0XuwPOdS5U" =
      .ok (some ⟨"usuario", "user", true⟩) ∧
    (100 : Nat) ≤ 150 ∧
    (150 : Nat) ≤ 100 + defaultSettings.access_token_expire_minutes * 60 ∧
    ∃ payload,
      verify_token (mintToken
          [("sub", .str (AuthUser.mk "usuario" "user" true).username),
           ("role", .str (AuthUser.mk "usuario" "user" true).role)]
          100 "J" none defaultSettings) defaultSettings 150 fake_users_db =
        .ok payload ∧
      dictGet payload "sub" =
        some (.str (AuthUser.mk "usuario" "user" true).username) ∧
      dictGet payload "role" =
        some (.str (AuthUser.mk "usuario" "user" true).role) :=
  ⟨by decide, by decide, by decide,
   C1_round_trip "usuario" "L0XuwPOdS5U" ⟨"usuario", "user", true⟩ 100 150 "J"
     defaultSettings (by decide) (by decide) (by decide)⟩

/-- Claim C7: a validly signed, unexpired token minted for a valid role is
rejected with the user-not-found-or-inactive failure when its subject is
absent from the credential store or marked inactive at verification time
(revocation by deactivation). -/
theorem C7_user_not_found_or_inactive (u r : String) (t0 now : Nat) (jti : String)
    (cfg : Settings) (db : List (String × UserRec))
    (hr : r = "user" ∨ r = "admin") (hu : u ≠ "")
    (h1 : t0 ≤ now) (h2 : now ≤ t0 + cfg.access_token_expire_minutes * 60)
    (habs : lookupStr db u = none ∨
      ∃ rec, lookupStr db u = some rec ∧ rec.is_active = false) :
    verify_token (mintToken [("sub", .str u), ("role", .str r)] t0 jti none cfg)
      cfg now db = .error .userNotFoundOrInactive := by
  have h2' : ¬ (t0 + cfg.access_token_expire_minutes * 60 < now) := by omega
  unfold verify_token mintToken
  rw [create_access_token_sub_role, joseDecode_jwtEncode,
    validate_claims_minted _ _ _ _ _ _ h1 h2']
  rcases hr with h | h <;> subst h <;>
  · simp +decide [isFalsy, dictGet, lookupStr, roleClaimsCheck, validate_role,
      VALID_ROLES, sha256Hex, hu]
    rcases habs with hn | ⟨rec, hrec, hact⟩
    · simp [hn]
    · simp [hrec, hact]

/-- Witness for C7: the stored user's token, verified against a store in
which the user has been deactivated. -/
theorem C7_user_not_found_or_inactive_witness :
    verify_token (mintToken [("sub", .str "usuario"), ("role", .str "user")]
        100 "J" none defaultSettings) defaultSettings 150
      [("usuario", ⟨"usuario", "user", pwd_hash "L0XuwPOdS5U", false,
        sha256Hex "user"⟩)] = .error .userNotFoundOrInactive :=
  C7_user_not_found_or_inactive "usuario" "user" 100 150 "J" defaultSettings
    [("usuario", ⟨"usuario", "user", pwd_hash "L0XuwPOdS5U", false,
      sha256Hex "user"⟩)]
    (Or.inl rfl) (by decide) (by decide) (by decide)
    (Or.inr ⟨⟨"usuario", "user", pwd_hash "L0XuwPOdS5U", false, sha256Hex "user"⟩,
      by decide, by decide⟩)

/-- Claim C8: a validly signed token (one accepted by `jwt.decode`) whose
`sub` claim is missing or empty, or whose `role` or `role_hash` claim is
missing or empty, is rejected by `verify_token` with one of the two
malformed-token failures (missing subject / missing role information). -/
theorem C8_malformed_token (tok : Token) (p : Payload) (cfg : Settings)
    (now : Nat) (db : List (String × UserRec))
    (hdec : joseDecode tok cfg "teste-tivit-client" "teste-tivit-api" now = .ok p)
    (hmiss : isFalsy (dictGet p "sub") = true ∨
      (isFalsy (dictGet p "role") || isFalsy (dictGet p "role_hash")) = true) :
    verify_token tok cfg now db = .error .missingSubject ∨
    verify_token tok cfg now db = .error .missingRoleInfo := by
  unfold verify_token
  rw [hdec]
  cases hv : isFalsy (dictGet p "sub") with
  | true => left; simp [hv]
  | false =>
    right
    rcases hmiss with h | h
    · rw [hv] at h; exact absurd h (by simp)
    · simp [hv, h]

/-- Witness for C8: a signed token with no `sub` claim at all. -/
theorem C8_malformed_token_witness :
    verify_token ⟨[("iss", .str "teste-tivit-api")],
        "your-secret-key-here-change-in-production", "HS256"⟩
      defaultSettings 5 fake_users_db = .error .missingSubject ∨
    verify_token ⟨[("iss", .str "teste-tivit-api")],
        "your-secret-key-here-change-in-production", "HS256"⟩
      defaultSettings 5 fake_users_db = .error .missingRoleInfo :=
  C8_malformed_token ⟨[("iss", .str "teste-tivit-api")],
      "your-secret-key-here-change-in-production", "HS256"⟩
    [("iss", .str "teste-tivit-api")] defaultSettings 5 fake_users_db
    (by decide) (Or.inl (by decide))

/-- Counterexample to C9 as stated: the empty string is a role string other
than "user"/"admin", and a correctly signed, unexpired token carrying role
`""` with `role_hash` equal to the (symbolic) SHA-256 of `""` makes
`validate_role` return false, yet verification rejects it as a malformed
token (missing role information), not as role tampering. -/
theorem C9_counterexample :
    validate_role "" (sha256Hex "") = false ∧
    verify_token ⟨[("sub", .str "usuario"), ("role", .str ""),
        ("role_hash", .str (sha256Hex "")), ("iat", .time 0), ("nbf", .time 0),
        ("exp", .time 1000), ("iss", .str "teste-tivit-api"),
        ("aud", .str "teste-tivit-client")],
        "your-secret-key-here-change-in-production", "HS256"⟩
      defaultSettings 10 fake_users_db = .error .missingRoleInfo ∧
    verify_token ⟨[("sub", .str "usuario"), ("role", .str ""),
        ("role_hash", .str (sha256Hex "")), ("iat", .time 0), ("nbf", .time 0),
        ("exp", .time 1000), ("iss", .str "teste-tivit-api"),
        ("aud", .str "teste-tivit-client")],
        "your-secret-key-here-change-in-production", "HS256"⟩
      defaultSettings 10 fake_users_db ≠ .error .roleTampering := by
  decide

/-- Claim C9 (amended): for every correctly signed token accepted by
`jwt.decode`, with a non-empty subject, carrying any NON-EMPTY role string
other than "user" and "admin", even with `role_hash` equal to the SHA-256
of that role string, `validate_role` returns false and verification rejects
the token as role tampering. -/
theorem C9_only_valid_roles (tok : Token) (p : Payload) (cfg : Settings)
    (now : Nat) (db : List (String × UserRec)) (r : String)
    (hdec : joseDecode tok cfg "teste-tivit-client" "teste-tivit-api" now = .ok p)
    (hsub : isFalsy (dictGet p "sub") = false)
    (hrole : dictGet p "role" = some (.str r))
    (hr0 : r ≠ "") (hr1 : r ≠ "user") (hr2 : r ≠ "admin")
    (hhash : dictGet p "role_hash" = some (.str (sha256Hex r))) :
    validate_role r (sha256Hex r) = false ∧
    verify_token tok cfg now db = .error .roleTampering := by
  have hb1 : ("user" == r) = false := beq_eq_false_iff_ne.mpr (Ne.symm hr1)
  have hb2 : ("admin" == r) = false := beq_eq_false_iff_ne.mpr (Ne.symm hr2)
  have hrv : validate_role r (sha256Hex r) = false := by
    simp [validate_role, VALID_ROLES, lookupStr, hb1, hb2]
  refine ⟨hrv, ?_⟩
  have hf1 : (r == "") = false := beq_eq_false_iff_ne.mpr hr0
  have hf2 : (sha256Hex r == "") = false :=
    beq_eq_false_iff_ne.mpr (sha256Hex_ne_empty r)
  unfold verify_token
  rw [hdec]
  simp only [hsub, hrole, hhash]
  simp [isFalsy, roleClaimsCheck, hrv, hf1, hf2]

/-- Witness for the amended C9: a signed token declaring role "root" with a
matching digest. -/
theorem C9_only_valid_roles_witness :
    validate_role "root" (sha256Hex "root") = false ∧
    verify_token ⟨[("sub", .str "x"), ("role", .str "root"),
        ("role_hash", .str (sha256Hex "root")), ("iss", .str "teste-tivit-api")],
        "your-secret-key-here-change-in-production", "HS256"⟩
      defaultSettings 5 fake_users_db = .error .roleTampering :=
  C9_only_valid_roles ⟨[("sub", .str "x"), ("role", .str "root"),
      ("role_hash", .str (sha256Hex "root")), ("iss", .str "teste-tivit-api")],
      "your-secret-key-here-change-in-production", "HS256"⟩
    [("sub", .str "x"), ("role", .str "root"),
      ("role_hash", .str (sha256Hex "root")), ("iss", .str "teste-tivit-api")]
    defaultSettings 5 fake_users_db "root"
    (by decide) (by decide) (by decide) (by decide) (by decide) (by decide)
    (by decide)

/-- Claim C5, behaviour at the failing input: for a username absent from the
credential store the dummy verification runs against the malformed
placeholder hash and passlib raises `ValueError`, so `authenticate_user`
does NOT return the invalid-credentials result `None` there (the code slip
contradicting the intended timing-equalised `return None`); a wrong
password for a stored user does return `None`. -/
theorem C5_dummy_hash_divergence :
    authenticate_user fake_users_db "ghost" "secret" = .error .valueError ∧
    authenticate_user fake_users_db "usuario" "wrong-password" = .ok none := by
  decide

/-- The repository wired into the route layer stores exactly the two fixed
users. -/
theorem fakeRepo_cases (u : String) (d : DomainUser) (h : fakeRepo u = some d) :
    d = ⟨"usuario", .user, true, some (pwd_hash "L0XuwPOdS5U")⟩ ∨
    d = ⟨"admin", .admin, true, some (pwd_hash "JKSipm0YH")⟩ := by
  simp only [fakeRepo, lookupStr] at h
  split at h
  · left; exact (Option.some.injEq _ _ ▸ h).symm
  · split at h
    · right; exact (Option.some.injEq _ _ ▸ h).symm
    · exact absurd h (by simp)

/-- `pwd_context.verify` against a hash produced by `pwd_context.hash`
never raises: it returns the comparison result. -/
theorem verify_password_wellformed (stored p : String) :
    verify_password p (pwd_hash stored) = .ok (pwd_hash stored == pwd_hash p) := by
  have hpar : bcrypt_parseable (pwd_hash stored) = true := by
    simp [bcrypt_parseable, pwd_hash, String.data_append,
      List.isPrefixOf_iff_prefix, List.prefix_append]
  simp [verify_password, pwd_verify, hpar]

/-- Claim C10: the route-exposed authentication path
(`AuthenticationUseCase.authenticate`) performs no role-integrity check.
First conjunct: over the repository the routes are wired to, every
(username, password) input yields either `None` or a success result (no
integrity failure exists in its outcome space).  Second conjunct: tampering
with the stored role of every user in an arbitrary repository never changes
the outcome shape (failure / success / exception) of the use case.  Third
conjunct: it is not equivalent to `authenticate_user` — on the same
credential state with a tampered role tag, `authenticate_user` raises the
integrity violation while the use case authenticates successfully. -/
theorem C10_use_case_no_integrity_check :
    (∀ (u p : String) (now : Nat) (jti : String) (cfg : Settings),
      AuthenticationUseCase.authenticate fakeRepo u p now jti cfg = .ok none ∨
      ∃ r, AuthenticationUseCase.authenticate fakeRepo u p now jti cfg =
        .ok (some r)) ∧
    (∀ (repo : String → Option DomainUser) (rr : UserRole) (u p : String)
        (now : Nat) (jti : String) (cfg : Settings),
      authOutcome (AuthenticationUseCase.authenticate (retagRepo repo rr) u p
          now jti cfg) =
        authOutcome (AuthenticationUseCase.authenticate repo u p now jti cfg)) ∧
    (authenticate_user
        [("usuario", ⟨"usuario", "user", pwd_hash "L0XuwPOdS5U", true,
          "tampered-tag"⟩),
         ("admin", ⟨"admin", "admin", pwd_hash "JKSipm0YH", true,
          sha256Hex "admin"⟩)]
        "usuario" "L0XuwPOdS5U" = .error .integrityViolation ∧
      ∀ (now : Nat) (jti : String) (cfg : Settings), ∃ r,
        AuthenticationUseCase.authenticate fakeRepo "usuario" "L0XuwPOdS5U" now
          jti cfg = .ok (some r)) := by
  refine ⟨?_, ?_, by decide, ?_⟩
  · intro u p now jti cfg
    rcases hrepo : fakeRepo u with _ | d
    · left
      simp [AuthenticationUseCase.authenticate, hrepo]
    · rcases fakeRepo_cases u d hrepo with hd | hd <;> subst hd
      · cases hb : (pwd_hash "L0XuwPOdS5U" == pwd_hash p) with
        | false =>
          left
          simp +decide [AuthenticationUseCase.authenticate, hrepo,
            verify_password_wellformed, hb]
        | true =>
          right
          exact ⟨⟨mintToken [("sub", .str "usuario"),
              ("role", .str UserRole.user.value)] now jti none cfg, "bearer",
              "usuario", UserRole.user.value, true⟩,
            by simp +decide [AuthenticationUseCase.authenticate, hrepo,
              verify_password_wellformed, hb]⟩
      · cases hb : (pwd_hash "JKSipm0YH" == pwd_hash p) with
        | false =>
          left
          simp +decide [AuthenticationUseCase.authenticate, hrepo,
            verify_password_wellformed, hb]
        | true =>
          right
          exact ⟨⟨mintToken [("sub", .str "admin"),
              ("role", .str UserRole.admin.value)] now jti none cfg, "bearer",
              "admin", UserRole.admin.value, true⟩,
            by simp +decide [AuthenticationUseCase.authenticate, hrepo,
              verify_password_wellformed, hb]⟩
  · intro repo rr u p now jti cfg
    rcases hrepo : repo u with _ | d
    · simp [AuthenticationUseCase.authenticate, retagRepo, hrepo]
    · rcases d with ⟨du, drole, dact, dph⟩
      simp only [AuthenticationUseCase.authenticate, retagRepo, hrepo,
        Option.map_some]
      cases dact
      · simp [authOutcome]
      · rcases dph with _ | ph
        · simp [authOutcome]
        · simp only []
          cases hemp : (ph == "")
          · rcases hv : verify_password p ph with e | b
            · simp [hemp, hv, authOutcome]
            · cases b <;> simp [hemp, hv, authOutcome]
          · simp [hemp, authOutcome]
  · intro now jti cfg
    exact ⟨_, rfl⟩

end TesteTivit
